import Mathlib

/-!
Verification development for the pvfll-001-view e-ink display controller.

The development shallowly embeds the parts of the Python sources that the
verified properties are about:

* the refresh scheduler of `display.py` (`display_boxes`,
  `force_full_refresh`, the module-level `full_refresh_counter` and
  `FULL_REFRESH_INTERVAL`), with the e-paper driver abstracted into a
  record of failure behaviours;
* the per-cell renderer `draw_box` and the layout function
  `create_layout_image` of `display.py` (geometry and pixel drawing are
  abstracted away; what is kept is the choice of rendered variant and the
  text each variant shows);
* `format_size` of `util.py` and the identical copy in `api.py`;
* the snapshot merge performed by `update_single_box` in `main.py`.

Python strings are modelled as lists of characters (`List Char`), so that
slicing such as `s[:30]` becomes `List.take 30`.  Mutable module-level
state is passed explicitly: the refresh counter is an argument and a
result of the scheduler step.
-/

/-! ## Refresh scheduler (display.py lines 32-33, 150-153, 237-275) -/

/-- `FULL_REFRESH_INTERVAL = 10` from display.py line 33: do a full refresh
every 10 updates. -/
def FULL_REFRESH_INTERVAL : Nat := 10

/-- Abstraction of the Waveshare `epd` driver object as seen by
`display_boxes`: whether the partial-refresh entry points exist (their
absence makes Python raise `AttributeError`), whether the partial-refresh
call fails with a hardware error, and whether the full-refresh call
(`epd.init` or `epd.display`) fails. -/
structure Driver where
  partSupported : Bool
  partFails : Bool
  fullFails : Bool
  deriving DecidableEq

/-- The exceptions that can escape a driver call: `attrError` models
Python's `AttributeError` (partial-refresh mode missing), `hwError` any
other exception raised by the hardware driver. -/
inductive DriverError
  | attrError
  | hwError
  deriving DecidableEq

/-- Which hardware refresh was performed. -/
inductive RefreshKind
  | fullRefresh
  | partRefresh
  deriving DecidableEq

/-- The full-refresh driver call `epd.init(); epd.display(...)`. -/
def callFull (d : Driver) : Except DriverError Unit :=
  if d.fullFails then Except.error DriverError.hwError else Except.ok ()

/-- The partial-refresh driver call `epd.init_part();
epd.display_Partial(...)`: raises `AttributeError` when the mode is not
supported, a hardware error when the call itself fails. -/
def callPart (d : Driver) : Except DriverError Unit :=
  if !d.partSupported then Except.error DriverError.attrError
  else if d.partFails then Except.error DriverError.hwError
  else Except.ok ()

/-- The body of the outer `try` in `display_boxes` (display.py lines
249-272).  The counter is incremented first; then either the full path
(when `force_full_refresh` is set or the incremented counter reaches the
interval, resetting the counter to 0 on success) or the partial path runs.
Inside the partial path an `AttributeError` is caught and a full refresh is
attempted instead, without touching the counter.  The result is the new
counter together with either the refresh that was performed or the
exception that escaped the body. -/
def displayTry (d : Driver) (force : Bool) (c : Nat) :
    Nat × Except DriverError RefreshKind :=
  let c1 := c + 1
  if force || decide (FULL_REFRESH_INTERVAL ≤ c1) then
    match callFull d with
    | Except.ok _ => (0, Except.ok RefreshKind.fullRefresh)
    | Except.error e => (c1, Except.error e)
  else
    match callPart d with
    | Except.ok _ => (c1, Except.ok RefreshKind.partRefresh)
    | Except.error DriverError.attrError =>
      match callFull d with
      | Except.ok _ => (c1, Except.ok RefreshKind.fullRefresh)
      | Except.error e => (c1, Except.error e)
    | Except.error DriverError.hwError => (c1, Except.error DriverError.hwError)

/-- `display_boxes` (display.py lines 237-275), restricted to its
driver-facing effect: the outer `except Exception` catches whatever
escapes the body, so the function always returns; `none` records that the
attempted refresh failed and was only logged. -/
def display_boxes (d : Driver) (force : Bool) (c : Nat) :
    Nat × Option RefreshKind :=
  match displayTry d force c with
  | (c2, Except.ok k) => (c2, some k)
  | (c2, Except.error _) => (c2, none)

/-- `force_full_refresh` (display.py lines 150-153): sets the global
counter to `FULL_REFRESH_INTERVAL`, whatever its previous value. -/
def force_full_refresh (_c : Nat) : Nat := FULL_REFRESH_INTERVAL

/-- A driver with partial mode supported and no failures. -/
def goodDriver : Driver := ⟨true, false, false⟩

/-- A driver whose partial-refresh entry points are missing. -/
def noPartDriver : Driver := ⟨false, false, false⟩

/-- A driver whose partial-refresh call raises a hardware error. -/
def flakyPartDriver : Driver := ⟨true, true, false⟩

/-- A driver whose full-refresh call raises a hardware error. -/
def fullFailDriver : Driver := ⟨true, false, true⟩

/-- Iterate `display_boxes` with `force_full_refresh=false` against a fixed
driver, returning the final counter and the refresh performed by each
call, in order. -/
def runFrom (d : Driver) (c : Nat) : Nat → Nat × List (Option RefreshKind)
  | 0 => (c, [])
  | n + 1 =>
    let p := runFrom d c n
    let q := display_boxes d false p.1
    (q.1, p.2 ++ [q.2])

/-- Normal form of one scheduler step, used by several proofs below. -/
theorem display_boxes_eq (d : Driver) (force : Bool) (c : Nat) :
    display_boxes d force c =
      if force || decide (FULL_REFRESH_INTERVAL ≤ c + 1) then
        if d.fullFails then (c + 1, none)
        else (0, some RefreshKind.fullRefresh)
      else if d.partSupported then
        if d.partFails then (c + 1, none)
        else (c + 1, some RefreshKind.partRefresh)
      else if d.fullFails then (c + 1, none)
      else (c + 1, some RefreshKind.fullRefresh) := by
  obtain ⟨ps, pf, ff⟩ := d
  by_cases h : FULL_REFRESH_INTERVAL ≤ c + 1 <;>
    cases ps <;> cases pf <;> cases ff <;> cases force <;>
      simp [display_boxes, displayTry, callFull, callPart, h]

/-- The counter returned by the `try` body is `c + 1` except on a
successful scheduled or forced full refresh, where it is 0. -/
theorem displayTry_counter (d : Driver) (force : Bool) (c : Nat) :
    (displayTry d force c).1 = c + 1 ∨
      displayTry d force c = (0, Except.ok RefreshKind.fullRefresh) := by
  obtain ⟨ps, pf, ff⟩ := d
  by_cases h : FULL_REFRESH_INTERVAL ≤ c + 1 <;>
    cases ps <;> cases pf <;> cases ff <;> cases force <;>
      simp [displayTry, callFull, callPart, h]

/-! ## Size formatting (util.py lines 5-21, api.py lines 93-109)

The Python code computes with binary64 floats.  The only inexact step is
the initial conversion `float(bytes_value)`: a Python int converts to the
nearest binary64, ties to even, so integers up to `2 ^ 53` convert
exactly and larger ones are rounded to a multiple of their ulp.  Every
later step is exact: dividing a binary64 by 1024 only decrements the
exponent (the quotients here never come near the subnormal range), and
Python's one-decimal formatting rounds the exactly-represented quotient
half to even.  The embedding therefore rounds the integer once, exactly
as binary64 does, and continues with exact integer arithmetic on the
rounded value.  It is faithful whenever `float(bytes_value)` is finite,
which covers the spec's whole `uint64` size domain (Python raises
`OverflowError` only near `2 ^ 1024`). -/

/-- `units = ["B", "KB", "MB", "GB"]`. -/
def UNITS : List String := ["B", "KB", "MB", "GB"]

/-- The `while size >= 1024 and unit_index < len(units) - 1` loop.  The
running float `size` after `i` divisions equals `b / 1024 ^ i` exactly, so
the continuation test `size >= 1024` is the integer test
`1024 ^ (i + 1) <= b`.  The loop runs at most 3 times; the fuel argument
(always called with 3) only makes the recursion structural.  Returns the
final `unit_index`. -/
def unitLoop : Nat → Nat → Nat → Nat
  | 0, _, i => i
  | fuel + 1, b, i =>
    if 1024 ^ (i + 1) ≤ b ∧ i < 3 then unitLoop fuel b (i + 1) else i

/-- Round `num / den` (with `den > 0`) to the nearest integer, ties to
even: the rounding binary64 applies, hence what Python's one-decimal
float formatting applies to the exactly-represented quotient. -/
def roundHalfEvenDiv (num den : Nat) : Nat :=
  let q := num / den
  let r := num % den
  if 2 * r < den then q
  else if den < 2 * r then q + 1
  else if q % 2 = 0 then q else q + 1

/-- Python's one-decimal float formatting of the exact value `b / den`:
round `10 * b / den` half to even, then print integer part, point, one
digit. -/
def formatOneDecimalDiv (b den : Nat) : String :=
  let n := roundHalfEvenDiv (10 * b) den
  toString (n / 10) ++ "." ++ toString (n % 10)

/-- The unit in the last place of `b` as a binary64: the smallest power
of two `u` with `b / u < 2 ^ 53`.  The fuel (always called with 2000)
only makes the recursion structural; 2000 doublings cover every `b`
below `2 ^ 2053`, far beyond where Python's int-to-float conversion
overflows. -/
def ulpLoop : Nat → Nat → Nat → Nat
  | 0, _, u => u
  | fuel + 1, b, u =>
    if 2 ^ 53 * u ≤ b then ulpLoop fuel b (2 * u) else u

/-- `float(b)` for a natural number `b`: the exact value of the nearest
binary64, ties to even — `b` itself when `b < 2 ^ 53`, otherwise `b`
rounded to the nearest even multiple of its ulp. -/
def floatOfNat (b : Nat) : Nat :=
  let u := ulpLoop 2000 b 1
  roundHalfEvenDiv b u * u

/-- `format_size` from util.py lines 5-21 (imported by display.py): "0 B"
for `None` or 0, otherwise convert to float, divide by 1024 while the
value stays at or above 1024 and units remain, then print with no
decimals in unit B and one decimal otherwise. -/
def format_size (bytes_value : Option Nat) : String :=
  match bytes_value with
  | none => "0 B"
  | some b =>
    if b = 0 then "0 B"
    else
      let rb := floatOfNat b
      let k := unitLoop 3 rb 0
      if k = 0 then toString rb ++ " " ++ UNITS.getD 0 ""
      else formatOneDecimalDiv rb (1024 ^ k) ++ " " ++ UNITS.getD k ""

namespace ApiModule

/-- `format_size` from api.py lines 93-109; the Python source is
textually identical to the util.py copy, and so is this embedding. -/
def format_size (bytes_value : Option Nat) : String :=
  match bytes_value with
  | none => "0 B"
  | some b =>
    if b = 0 then "0 B"
    else
      let rb := floatOfNat b
      let k := unitLoop 3 rb 0
      if k = 0 then toString rb ++ " " ++ UNITS.getD 0 ""
      else formatOneDecimalDiv rb (1024 ^ k) ++ " " ++ UNITS.getD k ""

end ApiModule

/-- The unit index described by C7: the smallest `k` in 0..3 with
`b / 1024 ^ k < 1024`, capped at 3 (GB). -/
def specUnitIndex (b : Nat) : Nat :=
  if b < 1024 then 0
  else if b < 1024 ^ 2 then 1
  else if b < 1024 ^ 3 then 2
  else 3

/-- `format_size` as claim C7 describes it: "0 B" for absent or zero,
otherwise the value expressed in the unit `specUnitIndex b`, with zero
decimal places for B and one decimal place otherwise. -/
def format_size_spec (bytes_value : Option Nat) : String :=
  match bytes_value with
  | none => "0 B"
  | some b =>
    if b = 0 then "0 B"
    else
      let k := specUnitIndex b
      if k = 0 then toString b ++ " B"
      else formatOneDecimalDiv b (1024 ^ k) ++ " " ++ UNITS.getD k ""

/-- The while loop lands on exactly the unit index of the claim. -/
theorem unitLoop_eq_specUnitIndex (b : Nat) : unitLoop 3 b 0 = specUnitIndex b := by
  simp only [unitLoop, specUnitIndex]
  split_ifs <;> omega

/-- One step of the ulp search. -/
theorem ulpLoop_succ (fuel b u : Nat) :
    ulpLoop (fuel + 1) b u =
      if 2 ^ 53 * u ≤ b then ulpLoop fuel b (2 * u) else u := rfl

/-- An integer below `2 ^ 53` converts to binary64 exactly. -/
theorem floatOfNat_eq_self (b : Nat) (hb : b < 2 ^ 53) : floatOfNat b = b := by
  have hcond : ¬ 2 ^ 53 * 1 ≤ b := by
    rw [Nat.mul_one]; exact Nat.not_le.mpr hb
  have hu : ulpLoop 2000 b 1 = 1 := by
    rw [show (2000 : Nat) = 1999 + 1 from rfl, ulpLoop_succ, if_neg hcond]
  simp [floatOfNat, hu, roundHalfEvenDiv, Nat.mod_one, Nat.div_one]

/-! ## Claims C1-C4: the refresh scheduler -/

/-- C1: starting from a refresh counter of 0, ten consecutive
`display_boxes` calls with `force_full_refresh=false`, partial mode
supported and no driver failure make calls 1-9 partial, make the 10th call
a full refresh and reset the counter to 0, and calls 11-19 are partial
again. -/
theorem c1_refresh_schedule :
    runFrom goodDriver 0 10 =
      (0, List.replicate 9 (some RefreshKind.partRefresh)
          ++ [some RefreshKind.fullRefresh])
    ∧ runFrom goodDriver 0 19 =
      (9, List.replicate 9 (some RefreshKind.partRefresh)
          ++ [some RefreshKind.fullRefresh]
          ++ List.replicate 9 (some RefreshKind.partRefresh)) := by
  decide

/-- C2, counterexample: with the partial-refresh entry points missing and
the counter at 0, `display_boxes` falls back to a full refresh but leaves
the counter at 1, not 0 — the fallback path of display.py lines 267-271
never resets `full_refresh_counter`. -/
theorem c2_fallback_no_reset_counterexample :
    display_boxes noPartDriver false 0 = (1, some RefreshKind.fullRefresh)
    ∧ (1 : Nat) ≠ 0 := by
  decide

/-- C2, amended: when the driver reports that partial mode is unsupported
(and the full-refresh call succeeds), `display_boxes` falls back to a full
refresh but does not reset the counter: the counter advances to `c + 1`
exactly as on a partial refresh. -/
theorem c2_fallback_amended (d : Driver) (c : Nat)
    (hps : d.partSupported = false) (hff : d.fullFails = false)
    (hc : c + 1 < FULL_REFRESH_INTERVAL) :
    display_boxes d false c = (c + 1, some RefreshKind.fullRefresh) := by
  have h : ¬ FULL_REFRESH_INTERVAL ≤ c + 1 := by omega
  rw [display_boxes_eq]
  simp [hps, hff, h]

/-- C2 amended, witness at the unsupported-partial driver and counter 0. -/
theorem c2_fallback_amended_witness :
    display_boxes noPartDriver false 0 = (1, some RefreshKind.fullRefresh) :=
  c2_fallback_amended noPartDriver 0 rfl rfl (by decide)

/-- C3, counterexample: a partial-refresh call that raises a hardware
error (counter 0 → 1) is not retried via fallback-to-full: the next cycle,
even with a fully healthy driver, performs a partial refresh again. -/
theorem c3_retry_counterexample :
    display_boxes flakyPartDriver false 0 = (1, none)
    ∧ display_boxes goodDriver false 1 = (2, some RefreshKind.partRefresh)
    ∧ RefreshKind.partRefresh ≠ RefreshKind.fullRefresh := by
  decide

/-- C3, amended: whenever the underlying driver call raises, the exception
is caught and `display_boxes` returns normally, and the counter still
advances to `c + 1`; the schedule then continues exactly as if the attempt
had happened: the next cycle performs a full refresh precisely when its
own incremented counter `c + 2` reaches the threshold — in particular a
failed scheduled or forced full refresh is always retried as full, and a
failed partial refresh one step below the threshold is followed by the
scheduled full refresh — and otherwise the next cycle attempts a partial
refresh again.  Fallback-to-full happens only inside a call whose driver
reports partial mode unsupported, never as a retry policy on the next
cycle. -/
theorem c3_driver_failure_amended (d : Driver) (force : Bool) (c c2 : Nat)
    (e : DriverError) (h : displayTry d force c = (c2, Except.error e)) :
    display_boxes d force c = (c2, none)
    ∧ c2 = c + 1
    ∧ (FULL_REFRESH_INTERVAL ≤ c + 2 →
        ∀ d2 : Driver, d2.fullFails = false →
          display_boxes d2 false c2 = (0, some RefreshKind.fullRefresh))
    ∧ (c + 2 < FULL_REFRESH_INTERVAL →
        ∀ d2 : Driver, d2.partSupported = true → d2.partFails = false →
          display_boxes d2 false c2 = (c2 + 1, some RefreshKind.partRefresh)) := by
  have hc2 : c2 = c + 1 := by
    rcases displayTry_counter d force c with h1 | h1
    · rw [h] at h1; exact h1
    · rw [h1] at h; exact absurd (congrArg Prod.snd h) (by simp)
  refine ⟨by simp [display_boxes, h], hc2, ?_, ?_⟩
  · intro hthr d2 hff
    have hcond : FULL_REFRESH_INTERVAL ≤ c2 + 1 := by omega
    rw [display_boxes_eq]
    simp [hff, hcond]
  · intro hlt d2 hps hpf
    have hcond : ¬ FULL_REFRESH_INTERVAL ≤ c2 + 1 := by omega
    rw [display_boxes_eq]
    simp [hps, hpf, hcond]

/-- C3 amended, witness: a failed scheduled full refresh at counter 9
leaves the counter at 10 and the next cycle performs a full refresh; a
failed partial refresh at counter 8 leaves the counter at 9 and the next
cycle performs the scheduled full refresh; a failed partial refresh at
counter 0 leaves the counter at 1 and the next cycle is partial. -/
theorem c3_driver_failure_amended_witness :
    (display_boxes fullFailDriver false 9 = (10, none)
      ∧ display_boxes goodDriver false 10 = (0, some RefreshKind.fullRefresh))
    ∧ (display_boxes flakyPartDriver false 8 = (9, none)
      ∧ display_boxes goodDriver false 9 = (0, some RefreshKind.fullRefresh))
    ∧ (display_boxes flakyPartDriver false 0 = (1, none)
      ∧ display_boxes goodDriver false 1 = (2, some RefreshKind.partRefresh)) := by
  have h := c3_driver_failure_amended fullFailDriver false 9 10
    DriverError.hwError rfl
  have h2 := c3_driver_failure_amended flakyPartDriver false 8 9
    DriverError.hwError rfl
  have h3 := c3_driver_failure_amended flakyPartDriver false 0 1
    DriverError.hwError rfl
  exact ⟨⟨h.1, h.2.2.1 (by decide) goodDriver rfl⟩,
    ⟨h2.1, h2.2.2.1 (by decide) goodDriver rfl⟩,
    ⟨h3.1, h3.2.2.2 (by decide) goodDriver rfl rfl⟩⟩

/-- C4: for every counter value `c`, calling `force_full_refresh` and then
`display_boxes` with `force_full_refresh=false` on a healthy driver
performs a full refresh regardless of `c`, and only on that call: the
counter is reset to 0, so the following call is partial again. -/
theorem c4_force_full_one_shot (d : Driver) (c : Nat)
    (hff : d.fullFails = false) (hps : d.partSupported = true)
    (hpf : d.partFails = false) :
    display_boxes d false (force_full_refresh c) = (0, some RefreshKind.fullRefresh)
    ∧ display_boxes d false 0 = (1, some RefreshKind.partRefresh) := by
  constructor
  · have h : FULL_REFRESH_INTERVAL ≤ force_full_refresh c + 1 := by
      simp [force_full_refresh]
    rw [display_boxes_eq]
    simp [hff, h]
  · have h : ¬ FULL_REFRESH_INTERVAL ≤ 0 + 1 := by decide
    rw [display_boxes_eq]
    simp [hps, hpf, h]

/-- C4, witness at the healthy driver and counter 7. -/
theorem c4_force_full_one_shot_witness :
    display_boxes goodDriver false (force_full_refresh 7)
      = (0, some RefreshKind.fullRefresh)
    ∧ display_boxes goodDriver false 0 = (1, some RefreshKind.partRefresh) :=
  c4_force_full_one_shot goodDriver 7 rfl rfl rfl

/-! ## Per-slot records and the cell renderer (display.py lines 185-235,
api.py lines 48-76, main.py lines 36-54)

A per-slot record is a Python dict; the keys the renderer reads are
modelled as optional fields (`none` = key absent).  Python strings are
lists of characters. -/

/-- One slot's record as consumed by `draw_box`: the dict keys `error`,
`empty`, `name`, `type` and `size`; `none` means the key is absent. -/
structure BoxData where
  error : Option (List Char)
  empty : Option Bool
  name : Option (List Char)
  ftype : Option (List Char)
  size : Option Nat
  deriving DecidableEq

/-- Python truthiness of `box_data.get("error")`: an absent key and an
empty string are falsy, a non-empty string is truthy. -/
def pyTruthy : Option (List Char) → Bool
  | none => false
  | some s => !s.isEmpty

/-- What a cell shows, abstracting the drawing coordinates: the ERROR
variant with its (possibly truncated) message, the Empty variant, or the
file-info variant with its three lines of text. -/
inductive CellVariant
  | errorCell (msg : List Char)
  | emptyCell
  | fileCell (name ftype : List Char) (size : String)
  deriving DecidableEq

/-- The error-message truncation of display.py line 215: messages longer
than 30 characters are cut to their first 30 characters with "..."
appended. -/
def truncErrorMsg (msg : List Char) : List Char :=
  if 30 < msg.length then msg.take 30 ++ "...".data else msg

/-- The filename truncation of display.py lines 228-229: names longer
than 30 characters are cut to their first 27 characters with "..."
appended. -/
def truncName (nm : List Char) : List Char :=
  if 30 < nm.length then nm.take 27 ++ "...".data else nm

/-- `draw_box` (display.py lines 191-235), reduced to the variant choice
and the text of the chosen variant: error first (Python truthiness of the
`error` value), then empty (the `empty` key, defaulting to true when
absent), and only otherwise the file info. -/
def draw_box (bd : BoxData) : CellVariant :=
  if pyTruthy bd.error then
    CellVariant.errorCell (truncErrorMsg (bd.error.getD []))
  else if bd.empty.getD true then
    CellVariant.emptyCell
  else
    CellVariant.fileCell (truncName (bd.name.getD "Unknown".data))
      (bd.ftype.getD "Unknown".data)
      (format_size (some (bd.size.getD 0)))

/-- The default record `box_data.get(box_num, ...)` supplies in
`create_layout_image` (display.py line 187) for a slot absent from the
snapshot: a dict holding only `empty: True`. -/
def emptyBoxDefault : BoxData :=
  { error := none, empty := some true, name := none, ftype := none, size := none }

/-- The record `fetch_box_status` returns after its last retry fails
(api.py line 76): `empty: True` together with the stringified exception. -/
def fetchFailureRecord (msg : List Char) : BoxData :=
  { error := some msg, empty := some true, name := none, ftype := none, size := none }

/-- `create_layout_image` (display.py lines 155-189), reduced to the four
cell variants it draws, in slot order 1, 2, 3, 4. -/
def create_layout_image (box_data : Nat → Option BoxData) : List CellVariant :=
  [1, 2, 3, 4].map fun n => draw_box ((box_data n).getD emptyBoxDefault)

/-- The state update of `update_single_box` (main.py lines 36-54): under
the lock, replace the record of the named slot in the shared mapping and
take the snapshot copy handed to `display_boxes`.  Returns the new shared
mapping and the snapshot. -/
def update_single_box (state : Nat → Option BoxData) (slot : Nat)
    (newData : BoxData) : (Nat → Option BoxData) × (Nat → Option BoxData) :=
  let merged := fun k => if k = slot then some newData else state k
  (merged, merged)

/-! ## Claims C5, C6, C9, C10: renderer and snapshot store -/

/-- C5, counterexample: a record carrying an error key whose message is
the empty string together with `empty: True` renders as the Empty cell,
not as an ERROR cell, because `box_data.get("error")` is falsy for the
empty string. -/
theorem c5_priority_counterexample :
    draw_box (fetchFailureRecord []) = CellVariant.emptyCell
    ∧ CellVariant.emptyCell ≠ CellVariant.errorCell (truncErrorMsg []) := by
  decide

/-- C5, amended: the renderer decides the variant in priority order with
Python truthiness on the error value — a record carrying a non-empty error
message (in particular the record produced when every fetch attempt
fails, provided the stringified exception is non-empty) renders as ERROR
whatever its other fields; a record whose error value is absent or the
empty string and whose `empty` key is true or absent renders as Empty;
only otherwise is the file info drawn. -/
theorem c5_variant_priority_amended (bd : BoxData) :
    (∀ m, bd.error = some m → m ≠ [] →
      draw_box bd = CellVariant.errorCell (truncErrorMsg m))
    ∧ ((bd.error = none ∨ bd.error = some []) → bd.empty.getD true = true →
      draw_box bd = CellVariant.emptyCell)
    ∧ ((bd.error = none ∨ bd.error = some []) → bd.empty = some false →
      draw_box bd = CellVariant.fileCell (truncName (bd.name.getD "Unknown".data))
        (bd.ftype.getD "Unknown".data) (format_size (some (bd.size.getD 0))))
    ∧ (∀ m, m ≠ [] →
      draw_box (fetchFailureRecord m) = CellVariant.errorCell (truncErrorMsg m)) := by
  refine ⟨?_, ?_, ?_, ?_⟩
  · intro m hm hne
    cases m with
    | nil => exact absurd rfl hne
    | cons a t => simp [draw_box, pyTruthy, hm]
  · rintro (h | h) hemp <;> simp [draw_box, pyTruthy, h, hemp]
  · rintro (h | h) hemp <;> simp [draw_box, pyTruthy, h, hemp]
  · intro m hm
    cases m with
    | nil => exact absurd rfl hm
    | cons a t => simp [draw_box, fetchFailureRecord, pyTruthy]

/-- C5 amended, witness: a failed-fetch record with message "timeout"
renders as ERROR, and the default empty record renders as Empty. -/
theorem c5_variant_priority_amended_witness :
    draw_box (fetchFailureRecord "timeout".data)
      = CellVariant.errorCell (truncErrorMsg "timeout".data)
    ∧ draw_box emptyBoxDefault = CellVariant.emptyCell := by
  have h := c5_variant_priority_amended (fetchFailureRecord "timeout".data)
  have h2 := c5_variant_priority_amended emptyBoxDefault
  exact ⟨h.1 "timeout".data rfl (by decide), h2.2.1 (Or.inl rfl) rfl⟩

/-- C6: for every snapshot and every slot in 1..4 missing from it, the
renderer is total (it always produces the four cells) and renders the
missing slot as Empty, not as an error. -/
theorem c6_missing_slot_renders_empty (snap : Nat → Option BoxData) (n : Nat)
    (hn : n ∈ ([1, 2, 3, 4] : List Nat)) (hmiss : snap n = none) :
    (create_layout_image snap).length = 4
    ∧ (create_layout_image snap)[n - 1]? = some CellVariant.emptyCell := by
  constructor
  · simp [create_layout_image]
  · fin_cases hn <;>
      simp [create_layout_image, hmiss, draw_box, pyTruthy, emptyBoxDefault]

/-- C6, witness: the all-absent snapshot renders slot 3 as Empty. -/
theorem c6_missing_slot_renders_empty_witness :
    (create_layout_image fun _ => none).length = 4
    ∧ (create_layout_image fun _ => none)[3 - 1]? = some CellVariant.emptyCell :=
  c6_missing_slot_renders_empty (fun _ => none) 3 (by decide) rfl

/-- C9: merging a new record for one slot replaces exactly that slot's
entry: every other slot's record in the snapshot handed to the renderer is
the very record the previous state held, and the snapshot is the merged
mapping itself. -/
theorem c9_merge_frame (state : Nat → Option BoxData) (slot : Nat)
    (newData : BoxData) (k : Nat) (hk : k ≠ slot) :
    (update_single_box state slot newData).2 k = state k
    ∧ (update_single_box state slot newData).2 slot = some newData
    ∧ (update_single_box state slot newData).1
        = (update_single_box state slot newData).2 := by
  refine ⟨?_, ?_, rfl⟩
  · simp [update_single_box, hk]
  · simp [update_single_box]

/-- C9, witness: merging slot 2 into a state holding a record at slot 1
leaves slot 1 unchanged and stores the new record at slot 2. -/
theorem c9_merge_frame_witness :
    (update_single_box (fun k => if k = 1 then some emptyBoxDefault else none) 2
        (fetchFailureRecord "e".data)).2 1 = some emptyBoxDefault
    ∧ (update_single_box (fun k => if k = 1 then some emptyBoxDefault else none) 2
        (fetchFailureRecord "e".data)).2 2 = some (fetchFailureRecord "e".data) := by
  have h := c9_merge_frame (fun k => if k = 1 then some emptyBoxDefault else none) 2
    (fetchFailureRecord "e".data) 1 (by decide)
  exact ⟨h.1.trans rfl, h.2.1⟩

/-- C10: the drawn error message is the original when it has at most 30
characters, and otherwise its first 30 characters (a prefix of exactly 30
characters) with the ellipsis marker "..." appended. -/
theorem c10_error_message_truncation (msg : List Char) :
    (msg.length ≤ 30 → truncErrorMsg msg = msg)
    ∧ (30 < msg.length →
        truncErrorMsg msg = msg.take 30 ++ "...".data
        ∧ (msg.take 30).length = 30) := by
  constructor
  · intro h
    simp [truncErrorMsg, Nat.not_lt.mpr h]
  · intro h
    refine ⟨by simp [truncErrorMsg, h], ?_⟩
    rw [List.length_take]
    omega

/-- C10, witness: an 18-character message is unchanged and a 31-character
message is cut to 30 characters plus the marker. -/
theorem c10_error_message_truncation_witness :
    truncErrorMsg "Connection timeout".data = "Connection timeout".data
    ∧ truncErrorMsg (List.replicate 31 'a')
        = List.replicate 30 'a' ++ "...".data := by
  have h1 := (c10_error_message_truncation "Connection timeout".data).1 (by decide)
  have h2 := (c10_error_message_truncation (List.replicate 31 'a')).2 (by decide)
  exact ⟨h1, h2.1.trans (by decide)⟩

/-! ## Claims C7, C8: size formatting -/

/-- C7, counterexample: at size 9007199308428083, just above `2 ^ 53`,
Python's int-to-float conversion rounds the size up by one (ties to even)
before any division, so the code prints "8388608.1 GB" where the claimed
formatting of the exact value gives "8388608.0 GB". -/
theorem c7_float_rounding_counterexample :
    format_size (some 9007199308428083) = "8388608.1 GB"
    ∧ format_size_spec (some 9007199308428083) = "8388608.0 GB"
    ∧ ("8388608.1 GB" : String) ≠ "8388608.0 GB" := by
  decide

/-- C7, amended: for every size below `2 ^ 53` — the whole range on which
binary64 represents the integer exactly — `format_size` returns the value
expressed in the first unit of B, KB, MB, GB under which it drops below
1024 (capped at GB), with zero decimal places for the B unit and one
decimal place otherwise; an absent size and 0 format as "0 B", and in
particular 0 gives "0 B", 500 gives "500 B", 1536 gives "1.5 KB" and
1048576 gives "1.0 MB".  Above `2 ^ 53` the float conversion may round
the size and shift the printed digit. -/
theorem c7_format_size_correct :
    (∀ b : Nat, b < 2 ^ 53 → format_size (some b) = format_size_spec (some b))
    ∧ format_size none = "0 B"
    ∧ format_size (some 0) = "0 B"
    ∧ format_size (some 500) = "500 B"
    ∧ format_size (some 1536) = "1.5 KB"
    ∧ format_size (some 1048576) = "1.0 MB" := by
  refine ⟨?_, rfl, rfl, by decide, by decide, by decide⟩
  intro b hb
  simp only [format_size, format_size_spec]
  by_cases h0 : b = 0
  · simp [h0]
  · simp only [h0, if_false]
    rw [floatOfNat_eq_self b hb]
    simp only [unitLoop_eq_specUnitIndex]
    by_cases hk : specUnitIndex b = 0
    · rw [if_pos hk, if_pos hk, String.append_assoc]
      rfl
    · rw [if_neg hk, if_neg hk]

/-- C7 amended, witness: the general part applied at 1536. -/
theorem c7_format_size_correct_witness :
    format_size (some 1536) = format_size_spec (some 1536) :=
  c7_format_size_correct.1 1536 (by decide)

/-- C8: the size-formatting function is identical across the two call
sites: the `format_size` of util.py (used by the display renderer) and the
`format_size` of api.py return the same string on every input. -/
theorem c8_format_size_shared (b : Option Nat) :
    format_size b = ApiModule.format_size b := rfl
